import Mathlib

/-!
Verification of the checkout core of the friendhome-express repository.

The embedding follows src/src/pages/Checkout.tsx: the haversine distance
function `calculateDistance`, the fixed restaurant origin and delivery
radius, the pricing computation, and the three-step order submission
sequence `handlePlaceOrder` (address, order, order items) against an
external store, modelled by an explicit database state plus an oracle
giving each persistence call its outcome.  JavaScript numbers are embedded
as real numbers (coordinates, distances) and rational numbers (currency
amounts); `Math.atan2` is embedded by an explicit case split matching its
definition on real arguments.
-/

namespace FriendHome

open Real

noncomputable section

/-- JavaScript `Math.atan2 y x` restricted to real inputs: the angle of the
point `(x, y)`, in `(-π, π]`, with `atan2 0 0 = 0` as for positive zeros. -/
def atan2 (y x : ℝ) : ℝ :=
  if 0 < x then arctan (y / x)
  else if x < 0 then
    if 0 ≤ y then arctan (y / x) + π else arctan (y / x) - π
  else
    if 0 < y then π / 2 else if y < 0 then -(π / 2) else 0

/-- Checkout.tsx line 17: the fixed restaurant latitude (Anna Nagar). -/
def RESTAURANT_LAT : ℝ := 13.0878

/-- Checkout.tsx line 18: the fixed restaurant longitude. -/
def RESTAURANT_LNG : ℝ := 80.2085

/-- Checkout.tsx line 19: maximum delivery distance in km. -/
def MAX_DELIVERY_DISTANCE : ℝ := 10

/-- Checkout.tsx lines 28-38: the haversine distance function, with
JavaScript numbers embedded as reals. -/
def calculateDistance (lat1 lon1 lat2 lon2 : ℝ) : ℝ :=
  let R : ℝ := 6371
  let dLat := (lat2 - lat1) * π / 180
  let dLon := (lon2 - lon1) * π / 180
  let a :=
    Real.sin (dLat / 2) * Real.sin (dLat / 2) +
    Real.cos (lat1 * π / 180) * Real.cos (lat2 * π / 180) *
    Real.sin (dLon / 2) * Real.sin (dLon / 2)
  let c := 2 * atan2 (Real.sqrt a) (Real.sqrt (1 - a))
  R * c

/-- The haversine intermediate value `a` of `calculateDistance`, exposed for
reasoning. -/
def havA (lat1 lon1 lat2 lon2 : ℝ) : ℝ :=
  Real.sin ((lat2 - lat1) * π / 180 / 2) * Real.sin ((lat2 - lat1) * π / 180 / 2) +
  Real.cos (lat1 * π / 180) * Real.cos (lat2 * π / 180) *
  Real.sin ((lon2 - lon1) * π / 180 / 2) * Real.sin ((lon2 - lon1) * π / 180 / 2)

/-- The distance formula exactly as the specification section 4.1 words it:
convert the latitude and longitude differences to radians, form
`a = sin²(ΔLat/2) + cos lat1 · cos lat2 · sin²(ΔLng/2)`, and return
`2 · R · atan2 (√a) (√(1-a))` with `R = 6371`.  Written from the spec text,
for comparison against the source function. -/
def specDistance (lat1 lng1 lat2 lng2 : ℝ) : ℝ :=
  let dLat := (lat2 - lat1) * π / 180
  let dLng := (lng2 - lng1) * π / 180
  let a :=
    Real.sin (dLat / 2) ^ 2 +
    Real.cos (lat1 * π / 180) * Real.cos (lat2 * π / 180) * Real.sin (dLng / 2) ^ 2
  2 * 6371 * atan2 (Real.sqrt a) (Real.sqrt (1 - a))

/-- A cart line as held by the client-side cart state: menu item id, title,
unit price and quantity. -/
structure CartItem where
  id : ℕ
  title : String
  price : ℚ
  quantity : ℕ

/-- Modelled from the spec: the cart context value `total` used by
Checkout.tsx comes from CartContext.tsx, which is not in the repository
snapshot; spec section 4.2 defines it as `subtotal = Σ price × quantity`
over the cart lines. -/
def cartTotal (items : List CartItem) : ℚ :=
  (items.map (fun i => i.price * (i.quantity : ℚ))).sum

/-- The pricing block of Checkout.tsx lines 121-126: subtotal is the cart
total, tax is five percent of it, the delivery fee is the constant 30, and
the order total is their sum. -/
structure Totals where
  subtotal : ℚ
  tax : ℚ
  deliveryFee : ℚ
  total : ℚ

/-- Checkout.tsx lines 121-126 applied to the cart: `subtotal = total` from
the cart context, `tax = subtotal * 0.05`, `deliveryFee = 30`,
`orderTotal = subtotal + tax + deliveryFee`. -/
def checkoutTotals (items : List CartItem) : Totals :=
  let subtotal := cartTotal items
  let tax := subtotal * 0.05
  let deliveryFee : ℚ := 30
  { subtotal := subtotal, tax := tax, deliveryFee := deliveryFee,
    total := subtotal + tax + deliveryFee }

/-- A persisted row of the `addresses` table, as inserted by Checkout.tsx. -/
structure AddressRecord where
  id : ℕ
  user_id : ℕ
  label : String
  address_line : String
  latitude : ℝ
  longitude : ℝ

/-- The `order_status` enum of the migration SQL. -/
inductive OrderStatus where
  | placed
  | preparing
  | out_for_delivery
  | delivered
  | cancelled
deriving DecidableEq

/-- A persisted row of the `orders` table, as inserted by Checkout.tsx. -/
structure OrderRecord where
  id : ℕ
  user_id : ℕ
  address_id : ℕ
  subtotal : ℚ
  tax : ℚ
  delivery_fee : ℚ
  total : ℚ
  distance_km : ℝ
  notes : String
  status : OrderStatus

/-- A persisted row of the `order_items` table, as inserted by Checkout.tsx. -/
structure OrderItemRecord where
  order_id : ℕ
  menu_item_id : ℕ
  quantity : ℕ
  price : ℚ
  item_title : String

/-- The relevant slice of the external store state. -/
structure Db where
  addresses : List AddressRecord
  orders : List OrderRecord
  orderItems : List OrderItemRecord

/-- The client-side state that `handlePlaceOrder` reads: the authenticated
user, the selected coordinates (absent until chosen), the form fields and
the cart. -/
structure CheckoutEnv where
  user : Option ℕ
  latitude : Option ℝ
  longitude : Option ℝ
  label : String
  addressLine : String
  notes : String
  items : List CartItem

/-- The outcome the external store gives each of the three insert calls:
a generated row id on success or an error message. -/
structure DbOracle where
  addressResult : Except String ℕ
  orderResult : Except String ℕ
  itemsResult : Except String Unit

/-- The user-visible toast raised by `handlePlaceOrder`. -/
inductive Toast where
  | provideLocation
  | validationError (msg : String)
  | tooFar (distance : ℝ)
  | storeError (msg : String)
  | orderPlaced

/-- The observable result of a `handlePlaceOrder` run: the store state
afterwards, the toast shown, whether the cart was cleared, and the order
page navigated to. -/
structure CheckoutResult where
  db : Db
  toast : Toast
  cartCleared : Bool
  navigation : Option ℕ

/-- A run that touched no persistent state and ended with toast `t`. -/
def noPersist (db : Db) (t : Toast) : CheckoutResult :=
  { db := db, toast := t, cartCleared := false, navigation := none }

/-- Checkout.tsx lines 21-26 and 85-95: the zod address schema check.  Zod
reports the first failing field in declaration order, and
`validation.error.errors[0].message` is shown; `none` means the parse
succeeded. -/
def addressValidation (label addressLine : String) : Option String :=
  if label.length < 1 then some "Label is required"
  else if addressLine.length < 10 then some "Address must be at least 10 characters"
  else none

/-- The expected address row created by a submission. -/
def newAddress (aid u : ℕ) (env : CheckoutEnv) (lat lng : ℝ) : AddressRecord :=
  { id := aid, user_id := u, label := env.label, address_line := env.addressLine,
    latitude := lat, longitude := lng }

/-- The expected order row created by a submission: the totals of
`checkoutTotals`, the computed distance, and the `placed` status. -/
def newOrderRec (oid aid u : ℕ) (env : CheckoutEnv) (d : ℝ) : OrderRecord :=
  { id := oid, user_id := u, address_id := aid,
    subtotal := cartTotal env.items,
    tax := cartTotal env.items * 0.05,
    delivery_fee := 30,
    total := cartTotal env.items + cartTotal env.items * 0.05 + 30,
    distance_km := d, notes := env.notes, status := OrderStatus.placed }

/-- The order-item snapshot rows created for order `oid`, one per cart line. -/
def newOrderItems (oid : ℕ) (items : List CartItem) : List OrderItemRecord :=
  items.map (fun item =>
    { order_id := oid, menu_item_id := item.id, quantity := item.quantity,
      price := item.price, item_title := item.title })

/-- Checkout.tsx lines 79-169, `handlePlaceOrder`: guard against a missing
user or falsy coordinates (JavaScript `!latitude` is true for both `null`
and `0`), validate the address form, compute the distance and refuse
anything beyond the radius, then run the three dependent inserts in order,
stopping at the first store error without undoing prior inserts; on success
clear the cart and navigate to the new order. -/
def handlePlaceOrder (env : CheckoutEnv) (db : Db) (oracle : DbOracle) : CheckoutResult :=
  match env.user, env.latitude, env.longitude with
  | some u, some lat, some lng =>
    if lat = 0 ∨ lng = 0 then noPersist db Toast.provideLocation
    else
      match addressValidation env.label env.addressLine with
      | some msg => noPersist db (Toast.validationError msg)
      | none =>
        let distance := calculateDistance RESTAURANT_LAT RESTAURANT_LNG lat lng
        if MAX_DELIVERY_DISTANCE < distance then noPersist db (Toast.tooFar distance)
        else
          match oracle.addressResult with
          | Except.error e => noPersist db (Toast.storeError e)
          | Except.ok addressId =>
            let db1 : Db :=
              { db with addresses := db.addresses ++ [newAddress addressId u env lat lng] }
            match oracle.orderResult with
            | Except.error e =>
              { db := db1, toast := Toast.storeError e, cartCleared := false,
                navigation := none }
            | Except.ok orderId =>
              let db2 : Db :=
                { db1 with orders :=
                    db1.orders ++ [newOrderRec orderId addressId u env distance] }
              match oracle.itemsResult with
              | Except.error e =>
                { db := db2, toast := Toast.storeError e, cartCleared := false,
                  navigation := none }
              | Except.ok _ =>
                let db3 : Db :=
                  { db2 with orderItems := db2.orderItems ++ newOrderItems orderId env.items }
                { db := db3, toast := Toast.orderPlaced, cartCleared := true,
                  navigation := some orderId }
  | _, _, _ => noPersist db Toast.provideLocation

/-- A concrete checkout environment used as a witness: authenticated user,
location at the restaurant itself, valid form fields, two cart lines. -/
def envW : CheckoutEnv :=
  { user := some 7, latitude := some RESTAURANT_LAT, longitude := some RESTAURANT_LNG,
    label := "Home", addressLine := "12 Anna Nagar Main Road", notes := "",
    items := [{ id := 1, title := "Dosa", price := 80, quantity := 2 },
              { id := 2, title := "Meals", price := 150, quantity := 1 }] }

/-- The same witness environment with the delivery point moved to the
antipodal latitude, far outside the delivery radius. -/
def envFarW : CheckoutEnv :=
  { envW with latitude := some 193.0878, longitude := some 80.2085 }

/-- The same witness environment with the latitude entered as exactly 0,
which the falsy guard treats like an absent location. -/
def envZeroW : CheckoutEnv :=
  { envW with latitude := some 0 }

/-- An empty initial store state for witnesses. -/
def dbW : Db := { addresses := [], orders := [], orderItems := [] }

/-- An oracle in which all three inserts succeed. -/
def oracleOkW : DbOracle :=
  { addressResult := Except.ok 100, orderResult := Except.ok 200,
    itemsResult := Except.ok () }

/-- An oracle in which the third insert (order items) fails. -/
def oracleItemsFailW : DbOracle :=
  { addressResult := Except.ok 100, orderResult := Except.ok 200,
    itemsResult := Except.error "row level security violation" }

theorem calculateDistance_eq (lat1 lon1 lat2 lon2 : ℝ) :
    calculateDistance lat1 lon1 lat2 lon2 =
      6371 * (2 * atan2 (Real.sqrt (havA lat1 lon1 lat2 lon2))
        (Real.sqrt (1 - havA lat1 lon1 lat2 lon2))) := rfl

theorem atan2_of_pos (y x : ℝ) (hx : 0 < x) : atan2 y x = arctan (y / x) := by
  unfold atan2
  rw [if_pos hx]

theorem atan2_nonneg {y x : ℝ} (hy : 0 ≤ y) (hx : 0 ≤ x) : 0 ≤ atan2 y x := by
  unfold atan2
  rcases lt_or_eq_of_le hx with h | h
  · rw [if_pos h]
    rw [← Real.arctan_zero]
    exact Real.arctan_strictMono.monotone (div_nonneg hy h.le)
  · rw [if_neg (by rw [← h]; exact lt_irrefl 0), if_neg (by rw [← h]; exact lt_irrefl 0)]
    rcases lt_or_eq_of_le hy with hy' | hy'
    · rw [if_pos hy']
      positivity
    · rw [if_neg (by rw [← hy']; exact lt_irrefl 0), if_neg (by rw [← hy']; exact lt_irrefl 0)]

theorem arctan_le_self {t : ℝ} (ht : 0 ≤ t) : arctan t ≤ t := by
  rcases eq_or_lt_of_le ht with h | h
  · rw [← h, Real.arctan_zero]
  · have h1 : 0 < arctan t := by
      rw [← Real.arctan_zero]
      exact Real.arctan_strictMono h
    have h2 := Real.lt_tan h1 (Real.arctan_lt_pi_div_two t)
    rw [Real.tan_arctan] at h2
    linarith

theorem calculateDistance_self (lat lon : ℝ) : calculateDistance lat lon lat lon = 0 := by
  rw [calculateDistance_eq]
  have ha : havA lat lon lat lon = 0 := by
    unfold havA
    simp
  rw [ha]
  rw [Real.sqrt_zero, sub_zero, Real.sqrt_one, atan2_of_pos 0 1 one_pos]
  simp [Real.arctan_zero]

theorem calculateDistance_comm (lat1 lon1 lat2 lon2 : ℝ) :
    calculateDistance lat1 lon1 lat2 lon2 = calculateDistance lat2 lon2 lat1 lon1 := by
  rw [calculateDistance_eq, calculateDistance_eq]
  have ha : havA lat1 lon1 lat2 lon2 = havA lat2 lon2 lat1 lon1 := by
    unfold havA
    have h1 : (lat1 - lat2) * π / 180 / 2 = -((lat2 - lat1) * π / 180 / 2) := by ring
    have h2 : (lon1 - lon2) * π / 180 / 2 = -((lon2 - lon1) * π / 180 / 2) := by ring
    rw [h1, h2, Real.sin_neg, Real.sin_neg]
    ring
  rw [ha]

theorem calculateDistance_nonneg (lat1 lon1 lat2 lon2 : ℝ) :
    0 ≤ calculateDistance lat1 lon1 lat2 lon2 := by
  rw [calculateDistance_eq]
  have h := atan2_nonneg (Real.sqrt_nonneg (havA lat1 lon1 lat2 lon2))
    (Real.sqrt_nonneg (1 - havA lat1 lon1 lat2 lon2))
  linarith

theorem sqrt_le_atan2_sqrt {a : ℝ} (h0 : 0 ≤ a) (h1 : a < 1) :
    Real.sqrt a ≤ atan2 (Real.sqrt a) (Real.sqrt (1 - a)) := by
  have hx : 0 < Real.sqrt (1 - a) := Real.sqrt_pos.mpr (by linarith)
  rw [atan2_of_pos _ _ hx]
  set t := Real.sqrt a / Real.sqrt (1 - a) with hts
  have ht : 0 ≤ t := div_nonneg (Real.sqrt_nonneg a) hx.le
  have harc : 0 ≤ arctan t := by
    rw [← Real.arctan_zero]
    exact Real.arctan_strictMono.monotone ht
  have hsin := Real.sin_le harc
  rw [Real.sin_arctan] at hsin
  have hne : (1:ℝ) - a ≠ 0 := ne_of_gt (by linarith)
  have hsq : 1 + t ^ 2 = (1 - a)⁻¹ := by
    rw [hts, div_pow, Real.sq_sqrt h0, Real.sq_sqrt (by linarith : (0:ℝ) ≤ 1 - a)]
    field_simp
  have hroot : Real.sqrt (1 + t ^ 2) = (Real.sqrt (1 - a))⁻¹ := by
    rw [hsq, Real.sqrt_inv]
  have hval : t / Real.sqrt (1 + t ^ 2) = Real.sqrt a := by
    rw [hroot, hts]
    field_simp
  rw [hval] at hsin
  exact hsin

theorem atan2_sqrt_le {a : ℝ} (h0 : 0 ≤ a) (h1 : a < 1) :
    atan2 (Real.sqrt a) (Real.sqrt (1 - a)) ≤ Real.sqrt a / Real.sqrt (1 - a) := by
  have hx : 0 < Real.sqrt (1 - a) := Real.sqrt_pos.mpr (by linarith)
  rw [atan2_of_pos _ _ hx]
  exact arctan_le_self (div_nonneg (Real.sqrt_nonneg a) hx.le)

theorem calculateDistance_lb (lat1 lon1 lat2 lon2 : ℝ)
    (h0 : 0 ≤ havA lat1 lon1 lat2 lon2) (h1 : havA lat1 lon1 lat2 lon2 < 1) :
    12742 * Real.sqrt (havA lat1 lon1 lat2 lon2) ≤ calculateDistance lat1 lon1 lat2 lon2 := by
  rw [calculateDistance_eq]
  have h := sqrt_le_atan2_sqrt h0 h1
  linarith

theorem calculateDistance_ub (lat1 lon1 lat2 lon2 : ℝ)
    (h0 : 0 ≤ havA lat1 lon1 lat2 lon2) (h1 : havA lat1 lon1 lat2 lon2 < 1) :
    calculateDistance lat1 lon1 lat2 lon2 ≤
      12742 * (Real.sqrt (havA lat1 lon1 lat2 lon2) /
        Real.sqrt (1 - havA lat1 lon1 lat2 lon2)) := by
  rw [calculateDistance_eq]
  have h := atan2_sqrt_le h0 h1
  linarith

theorem havA_bounds_aux {t1 t2 p q : ℝ}
    (ht1l : (0.0005427972 : ℝ) ≤ t1) (ht1u : t1 ≤ (0.0005427975 : ℝ))
    (ht2l : (0.0003621557 : ℝ) ≤ t2) (ht2u : t2 ≤ (0.0003621559 : ℝ))
    (hppos : (0:ℝ) ≤ p) (hpu : p ≤ (0.2284407 : ℝ))
    (hqpos : (0:ℝ) ≤ q) (hqu : q ≤ (0.2295248 : ℝ)) :
    (418e-9 : ℝ) ≤
      Real.sin t1 * Real.sin t1 + Real.cos p * Real.cos q * Real.sin t2 * Real.sin t2 ∧
    Real.sin t1 * Real.sin t1 + Real.cos p * Real.cos q * Real.sin t2 * Real.sin t2 ≤
      (426e-9 : ℝ) := by
  have ht1pos : (0:ℝ) < t1 := by linarith
  have ht2pos : (0:ℝ) < t2 := by linarith
  have hs1u : Real.sin t1 ≤ (0.0005427975 : ℝ) := le_trans (Real.sin_le ht1pos.le) ht1u
  have hs2u : Real.sin t2 ≤ (0.0003621559 : ℝ) := le_trans (Real.sin_le ht2pos.le) ht2u
  have hcube1 : t1 ^ 3 ≤ (0.0005427975 : ℝ) ^ 3 := pow_le_pow_left₀ ht1pos.le ht1u 3
  have hcube2 : t2 ^ 3 ≤ (0.0003621559 : ℝ) ^ 3 := pow_le_pow_left₀ ht2pos.le ht2u 3
  norm_num only at hcube1 hcube2
  have hs1l : (0.0005427971 : ℝ) ≤ Real.sin t1 := by
    have h := Real.sin_gt_sub_cube ht1pos (by linarith : t1 ≤ 1)
    linarith
  have hs2l : (0.0003621556 : ℝ) ≤ Real.sin t2 := by
    have h := Real.sin_gt_sub_cube ht2pos (by linarith : t2 ≤ 1)
    linarith
  have hcpl : (0.9739074 : ℝ) ≤ Real.cos p := by
    have h := Real.one_sub_sq_div_two_le_cos (x := p)
    rw [pow_two] at h
    have hp2 : p * p ≤ (0.2284407 : ℝ) * 0.2284407 :=
      mul_le_mul hpu hpu hppos (by norm_num)
    norm_num only at hp2
    linarith
  have hcql : (0.9736591 : ℝ) ≤ Real.cos q := by
    have h := Real.one_sub_sq_div_two_le_cos (x := q)
    rw [pow_two] at h
    have hq2 : q * q ≤ (0.2295248 : ℝ) * 0.2295248 :=
      mul_le_mul hqu hqu hqpos (by norm_num)
    norm_num only at hq2
    linarith
  have hcpu : Real.cos p ≤ 1 := Real.cos_le_one p
  have hcqu : Real.cos q ≤ 1 := Real.cos_le_one q
  have hcppos : (0:ℝ) ≤ Real.cos p := le_trans (by norm_num) hcpl
  have hcqpos : (0:ℝ) ≤ Real.cos q := le_trans (by norm_num) hcql
  have hs1pos : (0:ℝ) ≤ Real.sin t1 := le_trans (by norm_num) hs1l
  have hs2pos : (0:ℝ) ≤ Real.sin t2 := le_trans (by norm_num) hs2l
  have hcc : (0.9739074 : ℝ) * 0.9736591 ≤ Real.cos p * Real.cos q :=
    mul_le_mul hcpl hcql (by norm_num) hcppos
  norm_num only at hcc
  have hcc1 : Real.cos p * Real.cos q ≤ 1 := mul_le_one₀ hcpu hcqpos hcqu
  have hccpos : (0:ℝ) ≤ Real.cos p * Real.cos q := mul_nonneg hcppos hcqpos
  have hs1sq : (0.0005427971 : ℝ) * 0.0005427971 ≤ Real.sin t1 * Real.sin t1 :=
    mul_le_mul hs1l hs1l (by norm_num) hs1pos
  have hs2sq : (0.0003621556 : ℝ) * 0.0003621556 ≤ Real.sin t2 * Real.sin t2 :=
    mul_le_mul hs2l hs2l (by norm_num) hs2pos
  have hs1squ : Real.sin t1 * Real.sin t1 ≤ (0.0005427975 : ℝ) * 0.0005427975 :=
    mul_le_mul hs1u hs1u hs1pos (by norm_num)
  have hs2squ : Real.sin t2 * Real.sin t2 ≤ (0.0003621559 : ℝ) * 0.0003621559 :=
    mul_le_mul hs2u hs2u hs2pos (by norm_num)
  norm_num only at hs1sq hs2sq hs1squ hs2squ
  have hassoc : Real.cos p * Real.cos q * Real.sin t2 * Real.sin t2 =
      (Real.cos p * Real.cos q) * (Real.sin t2 * Real.sin t2) := by ring
  rw [hassoc]
  have hs2sqpos : (0:ℝ) ≤ Real.sin t2 * Real.sin t2 := mul_nonneg hs2pos hs2pos
  constructor
  · have hccs2 := mul_le_mul hcc hs2sq (by norm_num) hccpos
    norm_num only at hccs2
    linarith
  · have hccs2u := mul_le_mul hcc1 hs2squ hs2sqpos (by norm_num)
    norm_num only at hccs2u
    linarith

theorem havA_fixture_bounds :
    (418e-9 : ℝ) ≤ havA 13.0878 80.2085 13.15 80.25 ∧
    havA 13.0878 80.2085 13.15 80.25 ≤ (426e-9 : ℝ) := by
  have hpil := Real.pi_gt_d6
  have hpiu := Real.pi_lt_d6
  unfold havA
  exact havA_bounds_aux (by linarith) (by linarith) (by linarith) (by linarith)
    (by linarith) (by linarith) (by linarith) (by linarith)

theorem fixture_havA_nonneg : (0:ℝ) ≤ havA 13.0878 80.2085 13.15 80.25 :=
  le_trans (by norm_num) havA_fixture_bounds.1

theorem fixture_havA_lt_one : havA 13.0878 80.2085 13.15 80.25 < 1 :=
  lt_of_le_of_lt havA_fixture_bounds.2 (by norm_num)

theorem fixture_distance_lb : (8.2 : ℝ) < calculateDistance 13.0878 80.2085 13.15 80.25 := by
  have hlb := calculateDistance_lb 13.0878 80.2085 13.15 80.25
    fixture_havA_nonneg fixture_havA_lt_one
  have hs : Real.sqrt (418e-9 : ℝ) ≤ Real.sqrt (havA 13.0878 80.2085 13.15 80.25) :=
    Real.sqrt_le_sqrt havA_fixture_bounds.1
  have h82 : (8.2 : ℝ) / 12742 < Real.sqrt (418e-9 : ℝ) :=
    (Real.lt_sqrt (by norm_num)).mpr (by norm_num)
  nlinarith

theorem fixture_distance_ub : calculateDistance 13.0878 80.2085 13.15 80.25 < (8.4 : ℝ) := by
  have hub := calculateDistance_ub 13.0878 80.2085 13.15 80.25
    fixture_havA_nonneg fixture_havA_lt_one
  have hs : Real.sqrt (havA 13.0878 80.2085 13.15 80.25) < (0.000653 : ℝ) := by
    have h1 := Real.sqrt_le_sqrt havA_fixture_bounds.2
    have h2 : Real.sqrt (426e-9 : ℝ) < (0.000653 : ℝ) :=
      (Real.sqrt_lt' (by norm_num)).mpr (by norm_num)
    linarith
  have hd : (0.999999 : ℝ) < Real.sqrt (1 - havA 13.0878 80.2085 13.15 80.25) := by
    apply (Real.lt_sqrt (by norm_num)).mpr
    nlinarith [havA_fixture_bounds.2]
  have hdiv : Real.sqrt (havA 13.0878 80.2085 13.15 80.25) /
      Real.sqrt (1 - havA 13.0878 80.2085 13.15 80.25) < (0.000653 : ℝ) / 0.999999 := by
    have hnum : Real.sqrt (havA 13.0878 80.2085 13.15 80.25) /
        Real.sqrt (1 - havA 13.0878 80.2085 13.15 80.25) ≤
        Real.sqrt (havA 13.0878 80.2085 13.15 80.25) / (0.999999 : ℝ) :=
      div_le_div_of_nonneg_left (Real.sqrt_nonneg _) (by norm_num) hd.le
    have hfin : Real.sqrt (havA 13.0878 80.2085 13.15 80.25) / (0.999999 : ℝ) <
        (0.000653 : ℝ) / 0.999999 :=
      (div_lt_div_iff_of_pos_right (by norm_num)).mpr hs
    linarith
  nlinarith


theorem handlePlaceOrder_far (env : CheckoutEnv) (db : Db) (oracle : DbOracle)
    (u : ℕ) (lat lng : ℝ)
    (hu : env.user = some u) (hlat : env.latitude = some lat) (hlng : env.longitude = some lng)
    (hnz : ¬(lat = 0 ∨ lng = 0))
    (hval : addressValidation env.label env.addressLine = none)
    (hfar : MAX_DELIVERY_DISTANCE < calculateDistance RESTAURANT_LAT RESTAURANT_LNG lat lng) :
    handlePlaceOrder env db oracle =
      noPersist db (Toast.tooFar (calculateDistance RESTAURANT_LAT RESTAURANT_LNG lat lng)) := by
  simp only [handlePlaceOrder, hu, hlat, hlng, if_neg hnz, hval, if_pos hfar]

theorem handlePlaceOrder_addressFail (env : CheckoutEnv) (db : Db) (oracle : DbOracle)
    (u : ℕ) (lat lng : ℝ) (e : String)
    (hu : env.user = some u) (hlat : env.latitude = some lat) (hlng : env.longitude = some lng)
    (hnz : ¬(lat = 0 ∨ lng = 0))
    (hval : addressValidation env.label env.addressLine = none)
    (hnear : ¬ MAX_DELIVERY_DISTANCE < calculateDistance RESTAURANT_LAT RESTAURANT_LNG lat lng)
    (ha : oracle.addressResult = Except.error e) :
    handlePlaceOrder env db oracle = noPersist db (Toast.storeError e) := by
  simp only [handlePlaceOrder, hu, hlat, hlng, if_neg hnz, hval, if_neg hnear, ha]

theorem handlePlaceOrder_orderFail (env : CheckoutEnv) (db : Db) (oracle : DbOracle)
    (u aid : ℕ) (lat lng : ℝ) (e : String)
    (hu : env.user = some u) (hlat : env.latitude = some lat) (hlng : env.longitude = some lng)
    (hnz : ¬(lat = 0 ∨ lng = 0))
    (hval : addressValidation env.label env.addressLine = none)
    (hnear : ¬ MAX_DELIVERY_DISTANCE < calculateDistance RESTAURANT_LAT RESTAURANT_LNG lat lng)
    (ha : oracle.addressResult = Except.ok aid)
    (ho : oracle.orderResult = Except.error e) :
    handlePlaceOrder env db oracle =
      { db := { addresses := db.addresses ++ [newAddress aid u env lat lng],
                orders := db.orders, orderItems := db.orderItems },
        toast := Toast.storeError e, cartCleared := false, navigation := none } := by
  simp only [handlePlaceOrder, hu, hlat, hlng, if_neg hnz, hval, if_neg hnear, ha, ho]

theorem handlePlaceOrder_itemsFail (env : CheckoutEnv) (db : Db) (oracle : DbOracle)
    (u aid oid : ℕ) (lat lng : ℝ) (e : String)
    (hu : env.user = some u) (hlat : env.latitude = some lat) (hlng : env.longitude = some lng)
    (hnz : ¬(lat = 0 ∨ lng = 0))
    (hval : addressValidation env.label env.addressLine = none)
    (hnear : ¬ MAX_DELIVERY_DISTANCE < calculateDistance RESTAURANT_LAT RESTAURANT_LNG lat lng)
    (ha : oracle.addressResult = Except.ok aid)
    (ho : oracle.orderResult = Except.ok oid)
    (hi : oracle.itemsResult = Except.error e) :
    handlePlaceOrder env db oracle =
      { db := { addresses := db.addresses ++ [newAddress aid u env lat lng],
                orders := db.orders ++
                  [newOrderRec oid aid u env
                    (calculateDistance RESTAURANT_LAT RESTAURANT_LNG lat lng)],
                orderItems := db.orderItems },
        toast := Toast.storeError e, cartCleared := false, navigation := none } := by
  simp only [handlePlaceOrder, hu, hlat, hlng, if_neg hnz, hval, if_neg hnear, ha, ho, hi]

theorem handlePlaceOrder_success_run (env : CheckoutEnv) (db : Db) (oracle : DbOracle)
    (u aid oid : ℕ) (lat lng : ℝ)
    (hu : env.user = some u) (hlat : env.latitude = some lat) (hlng : env.longitude = some lng)
    (hnz : ¬(lat = 0 ∨ lng = 0))
    (hval : addressValidation env.label env.addressLine = none)
    (hnear : ¬ MAX_DELIVERY_DISTANCE < calculateDistance RESTAURANT_LAT RESTAURANT_LNG lat lng)
    (ha : oracle.addressResult = Except.ok aid)
    (ho : oracle.orderResult = Except.ok oid)
    (hi : oracle.itemsResult = Except.ok ()) :
    handlePlaceOrder env db oracle =
      { db := { addresses := db.addresses ++ [newAddress aid u env lat lng],
                orders := db.orders ++
                  [newOrderRec oid aid u env
                    (calculateDistance RESTAURANT_LAT RESTAURANT_LNG lat lng)],
                orderItems := db.orderItems ++ newOrderItems oid env.items },
        toast := Toast.orderPlaced, cartCleared := true, navigation := some oid } := by
  simp only [handlePlaceOrder, hu, hlat, hlng, if_neg hnz, hval, if_neg hnear, ha, ho, hi]

theorem far_point_distance :
    calculateDistance RESTAURANT_LAT RESTAURANT_LNG 193.0878 80.2085 = 6371 * π := by
  rw [calculateDistance_eq]
  have ha : havA RESTAURANT_LAT RESTAURANT_LNG 193.0878 80.2085 = 1 := by
    unfold havA RESTAURANT_LAT RESTAURANT_LNG
    have h1 : ((193.0878 : ℝ) - 13.0878) * π / 180 / 2 = π / 2 := by ring
    have h2 : ((80.2085 : ℝ) - 80.2085) * π / 180 / 2 = 0 := by ring
    rw [h1, h2, Real.sin_pi_div_two, Real.sin_zero]
    ring
  rw [ha, sub_self, Real.sqrt_zero, Real.sqrt_one]
  have hatan : atan2 1 0 = π / 2 := by
    unfold atan2
    rw [if_neg (lt_irrefl 0), if_neg (lt_irrefl 0), if_pos one_pos]
  rw [hatan]
  ring

theorem handlePlaceOrder_orders_cases (env : CheckoutEnv) (db : Db) (oracle : DbOracle) :
    (handlePlaceOrder env db oracle).db.orders = db.orders ∨
    ∃ oid aid u lat lng,
      ¬ MAX_DELIVERY_DISTANCE < calculateDistance RESTAURANT_LAT RESTAURANT_LNG lat lng ∧
      (handlePlaceOrder env db oracle).db.orders =
        db.orders ++ [newOrderRec oid aid u env
          (calculateDistance RESTAURANT_LAT RESTAURANT_LNG lat lng)] := by
  rcases hu : env.user with _ | u
  · left
    simp [handlePlaceOrder, hu, noPersist]
  rcases hlat : env.latitude with _ | lat
  · left
    simp [handlePlaceOrder, hu, hlat, noPersist]
  rcases hlng : env.longitude with _ | lng
  · left
    simp [handlePlaceOrder, hu, hlat, hlng, noPersist]
  by_cases hz : lat = 0 ∨ lng = 0
  · left
    simp [handlePlaceOrder, hu, hlat, hlng, if_pos hz, noPersist]
  rcases hval : addressValidation env.label env.addressLine with _ | msg
  swap
  · left
    simp [handlePlaceOrder, hu, hlat, hlng, if_neg hz, hval, noPersist]
  by_cases hfar : MAX_DELIVERY_DISTANCE < calculateDistance RESTAURANT_LAT RESTAURANT_LNG lat lng
  · left
    rw [handlePlaceOrder_far env db oracle u lat lng hu hlat hlng hz hval hfar]
    rfl
  rcases ha : oracle.addressResult with e | aid
  · left
    rw [handlePlaceOrder_addressFail env db oracle u lat lng e hu hlat hlng hz hval hfar ha]
    rfl
  rcases ho : oracle.orderResult with e | oid
  · left
    rw [handlePlaceOrder_orderFail env db oracle u aid lat lng e hu hlat hlng hz hval hfar ha ho]
  rcases hi : oracle.itemsResult with e | uu
  · right
    exact ⟨oid, aid, u, lat, lng, hfar, by
      rw [handlePlaceOrder_itemsFail env db oracle u aid oid lat lng e hu hlat hlng hz hval
        hfar ha ho hi]⟩
  · right
    exact ⟨oid, aid, u, lat, lng, hfar, by
      rw [handlePlaceOrder_success_run env db oracle u aid oid lat lng hu hlat hlng hz hval
        hfar ha ho hi]⟩

theorem order_invariants_aux (env : CheckoutEnv) (db : Db) (oracle : DbOracle)
    (o : OrderRecord) (ho : o ∈ (handlePlaceOrder env db oracle).db.orders)
    (hnew : o ∉ db.orders) :
    o.total = o.subtotal + o.tax + o.delivery_fee ∧ o.status = OrderStatus.placed ∧
    o.distance_km ≤ MAX_DELIVERY_DISTANCE ∧ o.subtotal = cartTotal env.items := by
  rcases handlePlaceOrder_orders_cases env db oracle with h | ⟨oid, aid, u, lat, lng, hnear, h⟩
  · rw [h] at ho
    exact absurd ho hnew
  · rw [h] at ho
    rcases List.mem_append.mp ho with h1 | h1
    · exact absurd h1 hnew
    · have heq : o = newOrderRec oid aid u env
          (calculateDistance RESTAURANT_LAT RESTAURANT_LNG lat lng) :=
        List.mem_singleton.mp h1
      subst heq
      exact ⟨by simp [newOrderRec], rfl, not_lt.mp hnear, rfl⟩

theorem envW_nz : ¬((RESTAURANT_LAT : ℝ) = 0 ∨ (RESTAURANT_LNG : ℝ) = 0) := by
  unfold RESTAURANT_LAT RESTAURANT_LNG
  norm_num

theorem envW_val : addressValidation envW.label envW.addressLine = none := by
  rfl

theorem envW_near :
    ¬ MAX_DELIVERY_DISTANCE <
      calculateDistance RESTAURANT_LAT RESTAURANT_LNG RESTAURANT_LAT RESTAURANT_LNG := by
  rw [calculateDistance_self]
  unfold MAX_DELIVERY_DISTANCE
  norm_num

theorem envFarW_far :
    MAX_DELIVERY_DISTANCE < calculateDistance RESTAURANT_LAT RESTAURANT_LNG 193.0878 80.2085 := by
  rw [far_point_distance]
  unfold MAX_DELIVERY_DISTANCE
  nlinarith [Real.pi_gt_three]

theorem envFarW_nz : ¬((193.0878 : ℝ) = 0 ∨ (80.2085 : ℝ) = 0) := by
  norm_num

/-- C1: for every pair of points the distance validator computes the
haversine formula exactly as the specification states it: it converts the
latitude and longitude differences to radians, computes
a = sin²(ΔLat/2) + cos lat1 · cos lat2 · sin²(ΔLng/2), and returns
2 · R · atan2 (√a) (√(1-a)) with Earth radius R = 6371 km. -/
theorem C1_distance_matches_spec_formula (lat1 lng1 lat2 lng2 : ℝ) :
    calculateDistance lat1 lng1 lat2 lng2 = specDistance lat1 lng1 lat2 lng2 := by
  unfold calculateDistance specDistance
  ring_nf

/-- C2: a checkout attempt whose destination is farther than the configured
maximum from the fixed restaurant origin is refused with a toast reporting
the computed distance, and the refusal leaves the store untouched no matter
what the persistence oracle would answer: none of the three inserts is
attempted and no partial state is created. -/
theorem C2_too_far_rejected_before_any_persistence
    (env : CheckoutEnv) (db : Db) (oracle : DbOracle) (u : ℕ) (lat lng : ℝ)
    (hu : env.user = some u) (hlat : env.latitude = some lat)
    (hlng : env.longitude = some lng) (hnz : ¬(lat = 0 ∨ lng = 0))
    (hval : addressValidation env.label env.addressLine = none)
    (hfar : MAX_DELIVERY_DISTANCE <
      calculateDistance RESTAURANT_LAT RESTAURANT_LNG lat lng) :
    handlePlaceOrder env db oracle =
      noPersist db (Toast.tooFar
        (calculateDistance RESTAURANT_LAT RESTAURANT_LNG lat lng)) :=
  handlePlaceOrder_far env db oracle u lat lng hu hlat hlng hnz hval hfar

/-- Witness for C2: a far-away point is refused at a concrete environment,
with the store left exactly as it was. -/
theorem C2_witness :
    handlePlaceOrder envFarW dbW oracleOkW =
      noPersist dbW (Toast.tooFar
        (calculateDistance RESTAURANT_LAT RESTAURANT_LNG 193.0878 80.2085)) :=
  C2_too_far_rejected_before_any_persistence envFarW dbW oracleOkW 7 193.0878 80.2085
    rfl rfl rfl envFarW_nz rfl envFarW_far

/-- C3: the pricing calculator computes subtotal = Σ price × quantity,
tax = subtotal × 0.05, delivery fee 30, and total as their sum; on the cart
[price 80 × 2, price 150 × 1] it yields 310, 15.50, 30 and 355.50. -/
theorem C3_pricing_calculator (items : List CartItem) :
    (checkoutTotals items).subtotal =
      (items.map (fun i => i.price * (i.quantity : ℚ))).sum ∧
    (checkoutTotals items).tax = (checkoutTotals items).subtotal * 0.05 ∧
    (checkoutTotals items).deliveryFee = 30 ∧
    (checkoutTotals items).total =
      (checkoutTotals items).subtotal + (checkoutTotals items).tax +
        (checkoutTotals items).deliveryFee ∧
    checkoutTotals
        [{ id := 1, title := "A", price := 80, quantity := 2 },
         { id := 2, title := "B", price := 150, quantity := 1 }] =
      { subtotal := 310, tax := 15.50, deliveryFee := 30, total := 355.50 } := by
  refine ⟨rfl, rfl, rfl, rfl, ?_⟩
  simp [checkoutTotals, cartTotal]
  norm_num

/-- C4: when any of the three persistence steps fails, the store error is
surfaced as the toast, the remaining steps are aborted, and no earlier step
is rolled back; in particular a failure at step three leaves the order row
created without any order-item rows. -/
theorem C4_failure_aborts_without_rollback
    (env : CheckoutEnv) (db : Db) (oracle : DbOracle) (u : ℕ) (lat lng : ℝ)
    (hu : env.user = some u) (hlat : env.latitude = some lat)
    (hlng : env.longitude = some lng) (hnz : ¬(lat = 0 ∨ lng = 0))
    (hval : addressValidation env.label env.addressLine = none)
    (hnear : ¬ MAX_DELIVERY_DISTANCE <
      calculateDistance RESTAURANT_LAT RESTAURANT_LNG lat lng) :
    (∀ e, oracle.addressResult = Except.error e →
      handlePlaceOrder env db oracle = noPersist db (Toast.storeError e)) ∧
    (∀ aid e, oracle.addressResult = Except.ok aid →
      oracle.orderResult = Except.error e →
      handlePlaceOrder env db oracle =
        { db := { addresses := db.addresses ++ [newAddress aid u env lat lng],
                  orders := db.orders, orderItems := db.orderItems },
          toast := Toast.storeError e, cartCleared := false, navigation := none }) ∧
    (∀ aid oid e, oracle.addressResult = Except.ok aid →
      oracle.orderResult = Except.ok oid →
      oracle.itemsResult = Except.error e →
      handlePlaceOrder env db oracle =
        { db := { addresses := db.addresses ++ [newAddress aid u env lat lng],
                  orders := db.orders ++
                    [newOrderRec oid aid u env
                      (calculateDistance RESTAURANT_LAT RESTAURANT_LNG lat lng)],
                  orderItems := db.orderItems },
          toast := Toast.storeError e, cartCleared := false, navigation := none }) :=
  ⟨fun e ha =>
      handlePlaceOrder_addressFail env db oracle u lat lng e hu hlat hlng hnz hval hnear ha,
   fun aid e ha ho =>
      handlePlaceOrder_orderFail env db oracle u aid lat lng e hu hlat hlng hnz hval hnear
        ha ho,
   fun aid oid e ha ho hi =>
      handlePlaceOrder_itemsFail env db oracle u aid oid lat lng e hu hlat hlng hnz hval
        hnear ha ho hi⟩

/-- Witness for C4: at a concrete environment in which the order-items
insert fails, the run surfaces the store error, keeps the created address
and order rows, and creates no order-item rows. -/
theorem C4_witness :
    handlePlaceOrder envW dbW oracleItemsFailW =
      { db := { addresses := dbW.addresses ++
                  [newAddress 100 7 envW RESTAURANT_LAT RESTAURANT_LNG],
                orders := dbW.orders ++
                  [newOrderRec 200 100 7 envW
                    (calculateDistance RESTAURANT_LAT RESTAURANT_LNG
                      RESTAURANT_LAT RESTAURANT_LNG)],
                orderItems := dbW.orderItems },
        toast := Toast.storeError "row level security violation",
        cartCleared := false, navigation := none } :=
  (C4_failure_aborts_without_rollback envW dbW oracleItemsFailW 7 RESTAURANT_LAT
      RESTAURANT_LNG rfl rfl rfl envW_nz envW_val envW_near).2.2
    100 200 "row level security violation" rfl rfl rfl

/-- C5: a successful submission with a non-empty cart, a valid address and
an authenticated user performs the three dependent inserts in order —
one address row, one order row referencing it and carrying the computed
totals, and one order-item snapshot row per cart line — then clears the
cart and navigates to the new order. -/
theorem C5_success_creates_all_records
    (env : CheckoutEnv) (db : Db) (oracle : DbOracle) (u aid oid : ℕ) (lat lng : ℝ)
    (hne : env.items ≠ [])
    (hu : env.user = some u) (hlat : env.latitude = some lat)
    (hlng : env.longitude = some lng) (hnz : ¬(lat = 0 ∨ lng = 0))
    (hval : addressValidation env.label env.addressLine = none)
    (hnear : ¬ MAX_DELIVERY_DISTANCE <
      calculateDistance RESTAURANT_LAT RESTAURANT_LNG lat lng)
    (ha : oracle.addressResult = Except.ok aid)
    (ho : oracle.orderResult = Except.ok oid)
    (hi : oracle.itemsResult = Except.ok ()) :
    handlePlaceOrder env db oracle =
      { db := { addresses := db.addresses ++ [newAddress aid u env lat lng],
                orders := db.orders ++
                  [newOrderRec oid aid u env
                    (calculateDistance RESTAURANT_LAT RESTAURANT_LNG lat lng)],
                orderItems := db.orderItems ++ newOrderItems oid env.items },
        toast := Toast.orderPlaced, cartCleared := true, navigation := some oid } ∧
    (handlePlaceOrder env db oracle).db.orderItems.length =
      db.orderItems.length + env.items.length := by
  have h := handlePlaceOrder_success_run env db oracle u aid oid lat lng hu hlat hlng hnz
    hval hnear ha ho hi
  refine ⟨h, ?_⟩
  rw [h]
  simp [newOrderItems]

/-- Witness for C5: a concrete successful run creating one address, one
order and two order-item snapshots. -/
theorem C5_witness :
    (handlePlaceOrder envW dbW oracleOkW =
      { db := { addresses := dbW.addresses ++
                  [newAddress 100 7 envW RESTAURANT_LAT RESTAURANT_LNG],
                orders := dbW.orders ++
                  [newOrderRec 200 100 7 envW
                    (calculateDistance RESTAURANT_LAT RESTAURANT_LNG
                      RESTAURANT_LAT RESTAURANT_LNG)],
                orderItems := dbW.orderItems ++ newOrderItems 200 envW.items },
        toast := Toast.orderPlaced, cartCleared := true, navigation := some 200 }) ∧
    (handlePlaceOrder envW dbW oracleOkW).db.orderItems.length =
      dbW.orderItems.length + envW.items.length :=
  C5_success_creates_all_records envW dbW oracleOkW 7 100 200 RESTAURANT_LAT RESTAURANT_LNG
    (List.cons_ne_nil _ _) rfl rfl rfl envW_nz envW_val envW_near rfl rfl rfl

/-- C6: every order row created by a submission satisfies the invariants:
its total is subtotal plus tax plus delivery fee with the subtotal equal to
the cart total at placement time, its status is placed, and its stored
distance is within the configured maximum radius. -/
theorem C6_created_order_invariants
    (env : CheckoutEnv) (db : Db) (oracle : DbOracle) (o : OrderRecord)
    (ho : o ∈ (handlePlaceOrder env db oracle).db.orders) (hnew : o ∉ db.orders) :
    o.total = o.subtotal + o.tax + o.delivery_fee ∧ o.status = OrderStatus.placed ∧
    o.distance_km ≤ MAX_DELIVERY_DISTANCE ∧ o.subtotal = cartTotal env.items :=
  order_invariants_aux env db oracle o ho hnew

/-- Witness for C6: the order row created by the concrete successful run
satisfies the invariants. -/
theorem C6_witness :
    (newOrderRec 200 100 7 envW
        (calculateDistance RESTAURANT_LAT RESTAURANT_LNG
          RESTAURANT_LAT RESTAURANT_LNG)).total =
      (newOrderRec 200 100 7 envW
        (calculateDistance RESTAURANT_LAT RESTAURANT_LNG
          RESTAURANT_LAT RESTAURANT_LNG)).subtotal +
      (newOrderRec 200 100 7 envW
        (calculateDistance RESTAURANT_LAT RESTAURANT_LNG
          RESTAURANT_LAT RESTAURANT_LNG)).tax +
      (newOrderRec 200 100 7 envW
        (calculateDistance RESTAURANT_LAT RESTAURANT_LNG
          RESTAURANT_LAT RESTAURANT_LNG)).delivery_fee ∧
    (newOrderRec 200 100 7 envW
        (calculateDistance RESTAURANT_LAT RESTAURANT_LNG
          RESTAURANT_LAT RESTAURANT_LNG)).status = OrderStatus.placed ∧
    (newOrderRec 200 100 7 envW
        (calculateDistance RESTAURANT_LAT RESTAURANT_LNG
          RESTAURANT_LAT RESTAURANT_LNG)).distance_km ≤ MAX_DELIVERY_DISTANCE ∧
    (newOrderRec 200 100 7 envW
        (calculateDistance RESTAURANT_LAT RESTAURANT_LNG
          RESTAURANT_LAT RESTAURANT_LNG)).subtotal = cartTotal envW.items := by
  have hrun := handlePlaceOrder_success_run envW dbW oracleOkW 7 100 200 RESTAURANT_LAT
    RESTAURANT_LNG rfl rfl rfl envW_nz envW_val envW_near rfl rfl rfl
  exact C6_created_order_invariants envW dbW oracleOkW
    (newOrderRec 200 100 7 envW
      (calculateDistance RESTAURANT_LAT RESTAURANT_LNG RESTAURANT_LAT RESTAURANT_LNG))
    (by rw [hrun]; simp)
    (by simp [dbW])

/-- C7: the distance function is symmetric in its two coordinate pairs, and
is zero on identical inputs. -/
theorem C7_symmetric_and_zero_on_equal :
    (∀ lat1 lon1 lat2 lon2 : ℝ,
      calculateDistance lat1 lon1 lat2 lon2 = calculateDistance lat2 lon2 lat1 lon1) ∧
    (∀ lat lon : ℝ, calculateDistance lat lon lat lon = 0) :=
  ⟨calculateDistance_comm, calculateDistance_self⟩

/-- C8 counterexample: the claim says the output is zero only if the two
input points have the same latitude and longitude values, but the two
distinct coordinate pairs (90, 0) and (90, 180) get distance zero, since
cos of 90 degrees kills the longitude term of the haversine value. -/
theorem C8_counterexample :
    calculateDistance 90 0 90 180 = 0 ∧ (0 : ℝ) ≠ 180 := by
  constructor
  · rw [calculateDistance_eq]
    have ha : havA 90 0 90 180 = 0 := by
      unfold havA
      have h1 : ((90 : ℝ) - 90) * π / 180 / 2 = 0 := by ring
      have h2 : (90 : ℝ) * π / 180 = π / 2 := by ring
      have h3 : ((180 : ℝ) - 0) * π / 180 / 2 = π / 2 := by ring
      rw [h1, h2, h3, Real.sin_zero, Real.cos_pi_div_two]
      ring
    rw [ha, Real.sqrt_zero, sub_zero, Real.sqrt_one, atan2_of_pos 0 1 one_pos]
    simp [Real.arctan_zero]
  · norm_num

/-- C8 amended: the distance output is always non-negative, and it is zero
whenever the two input points are identical; the converse direction of the
original claim fails, as the counterexample shows. -/
theorem C8_amended_nonneg_and_zero_if_identical (lat1 lon1 lat2 lon2 : ℝ) :
    0 ≤ calculateDistance lat1 lon1 lat2 lon2 ∧
    (lat1 = lat2 → lon1 = lon2 → calculateDistance lat1 lon1 lat2 lon2 = 0) := by
  refine ⟨calculateDistance_nonneg lat1 lon1 lat2 lon2, ?_⟩
  rintro rfl rfl
  exact calculateDistance_self lat1 lon1

/-- Witness for the amended C8 at concrete inputs. -/
theorem C8_amended_witness :
    0 ≤ calculateDistance 1 2 3 4 ∧ calculateDistance 5 6 5 6 = 0 :=
  ⟨(C8_amended_nonneg_and_zero_if_identical 1 2 3 4).1,
   (C8_amended_nonneg_and_zero_if_identical 5 6 5 6).2 rfl rfl⟩

/-- C9 counterexample: the distance between the two fixture points is not
in the claimed 7 to 8 km range; it exceeds 8.2 km. -/
theorem C9_counterexample :
    ¬((7 : ℝ) ≤ calculateDistance 13.0878 80.2085 13.15 80.25 ∧
      calculateDistance 13.0878 80.2085 13.15 80.25 ≤ 8) := by
  intro h
  have hlow := fixture_distance_lb
  linarith [h.2]

/-- C9 amended: the distance from the fixture point to itself is 0, and the
distance between (13.0878, 80.2085) and (13.15, 80.25) lies strictly
between 8.2 and 8.4 km. -/
theorem C9_amended_fixture_values :
    calculateDistance 13.0878 80.2085 13.0878 80.2085 = 0 ∧
    (8.2 : ℝ) < calculateDistance 13.0878 80.2085 13.15 80.25 ∧
    calculateDistance 13.0878 80.2085 13.15 80.25 < 8.4 :=
  ⟨calculateDistance_self 13.0878 80.2085, fixture_distance_lb, fixture_distance_ub⟩

/-- C10: whenever the selected latitude or longitude is unset or exactly 0,
the submission is rejected with the provide-location toast before address
validation, distance computation or any persistence call, because the guard
tests the coordinates for JavaScript falsiness rather than absence. -/
theorem C10_falsy_coordinate_guard (env : CheckoutEnv) (db : Db) (oracle : DbOracle)
    (h : env.latitude = none ∨ env.latitude = some 0 ∨
         env.longitude = none ∨ env.longitude = some 0) :
    handlePlaceOrder env db oracle = noPersist db Toast.provideLocation := by
  rcases hu : env.user with _ | u
  · simp [handlePlaceOrder, hu]
  rcases h with h | h | h | h
  · simp [handlePlaceOrder, hu, h]
  · rcases hlng : env.longitude with _ | lng
    · simp [handlePlaceOrder, hu, h, hlng]
    · simp [handlePlaceOrder, hu, h, hlng]
  · rcases hlat : env.latitude with _ | lat
    · simp [handlePlaceOrder, hu, hlat]
    · simp [handlePlaceOrder, hu, hlat, h]
  · rcases hlat : env.latitude with _ | lat
    · simp [handlePlaceOrder, hu, hlat]
    · simp [handlePlaceOrder, hu, hlat, h]

/-- Witness for C10: a concrete environment whose latitude is exactly 0 is
rejected with the provide-location toast. -/
theorem C10_witness :
    handlePlaceOrder envZeroW dbW oracleOkW = noPersist dbW Toast.provideLocation :=
  C10_falsy_coordinate_guard envZeroW dbW oracleOkW (Or.inr (Or.inl rfl))

end

end FriendHome
